import Mathlib

/-!
Shallow embedding of the synchronous-replication commit gate in
src/backend/replication/syncrep.c (GreenPlum syncrep module).

The shared-memory data model (wait slots, sender descriptors, the control
block with its per-mode queues and released-LSN marks) becomes explicit
Lean structures, and each C function that the claims mention becomes a
pure Lean function on that state.  LSNs are modelled as Nat (XLogRecPtr is
an unsigned 64-bit position compared with unsigned comparison and never
overflowed by the module; the reserved InvalidXLogRecPtr sentinel is 0,
and XLogRecPtrIsInvalid tests equality with 0).  The intrusive
doubly-linked SHM queues become Lean lists in queue order (head first);
SHMQueuePrev walking backward from the tail becomes recursion over the
reversed list.  The per-session latch becomes a Bool flag on the slot;
ereport becomes the recording of an error report value.
-/

/-- Wait states of a backend slot, per syncrep.h: SYNC_REP_NOT_WAITING,
SYNC_REP_WAITING, SYNC_REP_WAIT_COMPLETE. -/
inductive SyncRepState where
  | sync_rep_not_waiting
  | sync_rep_waiting
  | sync_rep_wait_complete
deriving DecidableEq, Repr

/-- Wait-slot fields of a PGPROC that the syncrep module touches: the pid
identifying the process (and hence its intrusive queue links), waitLSN,
syncRepState, and the process latch (modelled as a set flag). -/
structure PGPROC where
  pid : Nat
  waitLSN : Nat
  syncRepState : SyncRepState
  latchSet : Bool
deriving DecidableEq, Repr

/-- WAL sender lifecycle states from walsender_private.h. -/
inductive WalSndState where
  | startup
  | backup
  | catchup
  | streaming
  | stopping
deriving DecidableEq, Repr

/-- Per-sender shared descriptor (WalSnd): pid (0 when unused), state,
standby-acknowledged write and flush positions, sync_standby_priority and
the caughtup_within_range signal. -/
structure WalSnd where
  pid : Nat
  state : WalSndState
  write : Nat
  flush : Nat
  sync_standby_priority : Nat
  caughtup_within_range : Bool
deriving DecidableEq, Repr

/-- The two queued wait modes, SYNC_REP_WAIT_WRITE and SYNC_REP_WAIT_FLUSH
(NUM_SYNC_REP_WAIT_MODE = 2; SYNC_REP_NO_WAIT is the fast-path sentinel and
is modelled by Option at call sites that need it). -/
inductive SyncRepMode where
  | wait_write
  | wait_flush
deriving DecidableEq, Repr

/-- The WalSndCtlData control block: per-mode released-LSN marks (lsn[]),
per-mode wait queues (SyncRepQueue[]), the sync_standbys_defined flag and
the fixed walsnds array (modelled as a list indexed by sender slot). -/
structure WalSndCtlData where
  lsn_write : Nat
  lsn_flush : Nat
  queue_write : List PGPROC
  queue_flush : List PGPROC
  sync_standbys_defined : Bool
  walsnds : List WalSnd
deriving DecidableEq, Repr

/-- Released-LSN mark of a mode (WalSndCtl->lsn[mode]). -/
def WalSndCtlData.lsn (c : WalSndCtlData) : SyncRepMode → Nat
  | .wait_write => c.lsn_write
  | .wait_flush => c.lsn_flush

/-- Wait queue of a mode (WalSndCtl->SyncRepQueue[mode]). -/
def WalSndCtlData.queue (c : WalSndCtlData) : SyncRepMode → List PGPROC
  | .wait_write => c.queue_write
  | .wait_flush => c.queue_flush

/-- Replace the wait queue of one mode, leaving everything else unchanged. -/
def WalSndCtlData.setQueue (c : WalSndCtlData) : SyncRepMode → List PGPROC → WalSndCtlData
  | .wait_write, q => { c with queue_write := q }
  | .wait_flush, q => { c with queue_flush := q }

/-- Effect of SyncRepWakeQueue on one woken slot: SHMQueueDelete has
unlinked it, its syncRepState is set to SYNC_REP_WAIT_COMPLETE, and
SetLatch fires its latch. -/
def wakeProc (p : PGPROC) : PGPROC :=
  { p with syncRepState := .sync_rep_wait_complete, latchSet := true }

/-- Loop of SyncRepWakeQueue over the queue from its head: while not
stopping, unlink the head, mark it complete, set its latch and count it;
with all = false, stop and return at the first slot whose waitLSN exceeds
the high-water mark (walsndctl->lsn[mode]).  Returns the remaining queue,
the woken slots in wake order, and numprocs. -/
def wakeLoop (all : Bool) (high : Nat) : List PGPROC → List PGPROC × List PGPROC × Nat
  | [] => ([], [], 0)
  | p :: rest =>
      if all = false ∧ high < p.waitLSN then
        (p :: rest, [], 0)
      else
        let r := wakeLoop all high rest
        (r.1, wakeProc p :: r.2.1, r.2.2 + 1)

/-- SyncRepWakeQueue(all, mode): walk SyncRepQueue[mode] from the head,
waking slots up to WalSndCtl->lsn[mode] (all of them when all = true).
Returns the control block with the shortened queue, the woken slots, and
the numprocs return value. -/
def SyncRepWakeQueue (all : Bool) (mode : SyncRepMode) (ctl : WalSndCtlData) :
    WalSndCtlData × List PGPROC × Nat :=
  let r := wakeLoop all (ctl.lsn mode) (ctl.queue mode)
  (ctl.setQueue mode r.1, r.2.1, r.2.2)

/-- Backward walk of SyncRepQueueInsert, phrased on the reversed queue
(head of the argument is the queue tail, as delivered by SHMQueuePrev):
step back over slots until one with waitLSN strictly below the newcomer
is found and splice the newcomer in right after it; if none is found the
walk falls off the head and the newcomer is spliced after the queue head
sentinel. -/
def insertAux (my : PGPROC) : List PGPROC → List PGPROC
  | [] => [my]
  | p :: rest =>
      if p.waitLSN < my.waitLSN then
        my :: p :: rest
      else
        p :: insertAux my rest

/-- SyncRepQueueInsert(mode) for slot my into the given mode queue: start
at the tail and work back to the insertion point (the first node with
strictly smaller waitLSN), splicing my in after it, or at the head if no
such node exists. -/
def SyncRepQueueInsert (my : PGPROC) (q : List PGPROC) : List PGPROC :=
  (insertAux my q.reverse).reverse

/-- Test whether a slot with this pid is linked into either mode queue;
models SHMQueueIsDetached on the syncRepLinks of the slot (negated). -/
def procIsLinked (pid : Nat) (ctl : WalSndCtlData) : Bool :=
  (ctl.queue_write ++ ctl.queue_flush).any (fun p => p.pid == pid)

/-- SHMQueueDelete of the slot with this pid from one queue list. -/
def SHMQueueDeleteProc (pid : Nat) (q : List PGPROC) : List PGPROC :=
  q.filter (fun p => p.pid != pid)

/-- SyncRepCancelWait: under SyncRepLock, unlink the slot from its queue if
it is still linked, and reset its syncRepState to SYNC_REP_NOT_WAITING. -/
def SyncRepCancelWait (my : PGPROC) (ctl : WalSndCtlData) : WalSndCtlData × PGPROC :=
  let ctl2 :=
    if procIsLinked my.pid ctl then
      { ctl with queue_write := SHMQueueDeleteProc my.pid ctl.queue_write,
                 queue_flush := SHMQueueDeleteProc my.pid ctl.queue_flush }
    else ctl
  (ctl2, { my with syncRepState := .sync_rep_not_waiting })

/-- SyncRepCleanupAtProcExit: if the slot is still linked, delete it from
its queue under the lock (the state field is not reset here). -/
def SyncRepCleanupAtProcExit (my : PGPROC) (ctl : WalSndCtlData) : WalSndCtlData :=
  if procIsLinked my.pid ctl then
    { ctl with queue_write := SHMQueueDeleteProc my.pid ctl.queue_write,
               queue_flush := SHMQueueDeleteProc my.pid ctl.queue_flush }
  else ctl

/-- Scan of the walsnds array in SyncRepWaitForLSN for a query dispatcher:
is any sender active (pid nonzero) and streaming, or catching up within
range.  Each probe is made under the per-sender spinlock in the source. -/
def syncStandbyPresentScan (ws : List WalSnd) : Bool :=
  ws.any (fun w =>
    w.pid != 0 &&
      (w.state == WalSndState.streaming ||
        (w.state == WalSndState.catchup && w.caughtup_within_range)))

/-- Outcome of the SyncRepLock-protected section of SyncRepWaitForLSN. -/
inductive WaitOutcome where
  | no_active_standby
  | already_released
  | inserted
deriving DecidableEq, Repr

/-- The SyncRepLock-protected section of SyncRepWaitForLSN, entered with
the lock held exclusive: the dispatcher-only active-standby scan, then the
late-acknowledgment fast path (non-dispatcher roles with
sync_standbys_defined unset, or XactCommitLSN already at or below
lsn[mode], release the lock and return), and otherwise the enqueue (set
waitLSN, set state SYNC_REP_WAITING, SyncRepQueueInsert into the mode
queue).  Returns the control block, the slot, and which path was taken. -/
def SyncRepWaitForLSN_locked (isQD : Bool) (mode : SyncRepMode) (xactCommitLSN : Nat)
    (my : PGPROC) (ctl : WalSndCtlData) : WalSndCtlData × PGPROC × WaitOutcome :=
  if isQD = true ∧ syncStandbyPresentScan ctl.walsnds = false then
    (ctl, my, .no_active_standby)
  else if (isQD = false ∧ ctl.sync_standbys_defined = false) ∨ xactCommitLSN ≤ ctl.lsn mode then
    (ctl, my, .already_released)
  else
    let my2 := { my with waitLSN := xactCommitLSN, syncRepState := .sync_rep_waiting }
    (ctl.setQueue mode (SyncRepQueueInsert my2 (ctl.queue mode)), my2, .inserted)

/-- Eligibility test of the election scan in SyncRepReleaseWaiters: pid
nonzero, state streaming or stopping, positive sync_standby_priority, and
a valid (nonzero) flush position. -/
def eligibleSnd (w : WalSnd) : Bool :=
  w.pid != 0 &&
    (w.state == WalSndState.streaming || w.state == WalSndState.stopping) &&
    decide (0 < w.sync_standby_priority) &&
    w.flush != 0

/-- Election loop of SyncRepReleaseWaiters over the walsnds array: carry
the best priority seen (0 = none yet) and the index of the elected sender;
an eligible sender replaces the incumbent only when no incumbent exists or
its priority number is strictly smaller, so ties keep the lowest index. -/
def electLoop : List WalSnd → Nat → Nat → Option Nat → Nat × Option Nat
  | [], _, prio, res => (prio, res)
  | w :: rest, i, prio, res =>
      if eligibleSnd w && (prio == 0 || w.sync_standby_priority < prio) then
        electLoop rest (i + 1) w.sync_standby_priority (some i)
      else
        electLoop rest (i + 1) prio res

/-- Index of the sender elected by the scan in SyncRepReleaseWaiters, or
none when no sender is eligible (the case the debug Assert rules out). -/
def electSyncWalSnd (ws : List WalSnd) : Option Nat :=
  (electLoop ws 0 0 none).2

/-- Result of SyncRepReleaseWaiters: the control block, the value of the
static announce_next_takeover flag after the call, and the numwrite and
numflush wake counts. -/
structure ReleaseResult where
  ctl : WalSndCtlData
  announce : Bool
  numwrite : Nat
  numflush : Nat
deriving DecidableEq, Repr

/-- SyncRepReleaseWaiters for the sender at index myIdx with incoming
announce_next_takeover value a.  Gate: return at once when the caller has
priority 0, is neither streaming nor stopping, or has an invalid flush.
Under the lock, elect the eligible sender with the smallest priority
(lowest index on ties); if that is not the caller, set
announce_next_takeover and leave everything else untouched.  Otherwise
advance lsn[mode] to the write or flush position of the caller whenever that
position is strictly ahead, waking the queue of that mode up to the new mark,
and finally clear announce_next_takeover (logging takeover if it was
set). -/
def SyncRepReleaseWaiters (myIdx : Nat) (a : Bool) (ctl : WalSndCtlData) : ReleaseResult :=
  match ctl.walsnds[myIdx]? with
  | none => ⟨ctl, a, 0, 0⟩
  | some my =>
      if my.sync_standby_priority = 0 ∨
          (my.state ≠ WalSndState.streaming ∧ my.state ≠ WalSndState.stopping) ∨
          my.flush = 0 then
        ⟨ctl, a, 0, 0⟩
      else if electSyncWalSnd ctl.walsnds ≠ some myIdx then
        ⟨ctl, true, 0, 0⟩
      else
        let step_w :=
          if ctl.lsn_write < my.write then
            let c := { ctl with lsn_write := my.write }
            let r := SyncRepWakeQueue false .wait_write c
            (r.1, r.2.2)
          else (ctl, 0)
        let step_f :=
          if step_w.1.lsn_flush < my.flush then
            let c := { step_w.1 with lsn_flush := my.flush }
            let r := SyncRepWakeQueue false .wait_flush c
            (r.1, r.2.2)
          else (step_w.1, 0)
        ⟨step_f.1, false, step_w.2, step_f.2⟩

/-- SyncRepUpdateSyncStandbysDefined with the freshly computed
SyncStandbysDefined() value passed in: when it differs from the stored
flag and the new value is false, drain both mode queues with
SyncRepWakeQueue(true, mode) before storing the flag; when the values
agree, do nothing.  Returns the control block and the slots woken from
each queue. -/
def SyncRepUpdateSyncStandbysDefined (sync_standbys_defined : Bool) (ctl : WalSndCtlData) :
    WalSndCtlData × List PGPROC × List PGPROC :=
  if sync_standbys_defined ≠ ctl.sync_standbys_defined then
    if sync_standbys_defined = false then
      let r0 := SyncRepWakeQueue true .wait_write ctl
      let r1 := SyncRepWakeQueue true .wait_flush r0.1
      ({ r1.1 with sync_standbys_defined := sync_standbys_defined }, r0.2.1, r1.2.1)
    else
      ({ ctl with sync_standbys_defined := sync_standbys_defined }, [], [])
  else (ctl, [], [])

/-- SyncRepGetStandbyPriority, written over the configuration and sender
identity it could consult (the synchronous name list and the
application_name): the GreenPlum code allows at most one walsender and
unconditionally returns the constant priority 1, consulting neither. -/
def SyncRepGetStandbyPriority (syncRepStandbyNames : List String)
    (applicationName : String) : Nat :=
  1

/-- Error severities used by the wait loop of SyncRepWaitForLSN. -/
inductive ErrLevel where
  | level_log
  | level_warning
  | level_fatal
deriving DecidableEq, Repr

/-- An ereport call observed from the wait loop, modelled as a recorded
severity and message. -/
structure ErrReport where
  level : ErrLevel
  message : String
deriving DecidableEq, Repr

/-- Message of the termination report issued when ProcDiePending is
observed mid-wait. -/
def terminationMessage : String :=
  "canceling the wait for synchronous replication and terminating connection due to administrator command"

/-- Message of the warning issued when a query cancel request is ignored
mid-wait. -/
def cancelIgnoredMessage : String :=
  "ignoring query cancel request for synchronous replication to ensure cluster consistency"

/-- Asynchronous condition flags the wait loop polls: ProcDiePending,
QueryCancelPending, and PostmasterIsAlive(). -/
structure SessionFlags where
  procDiePending : Bool
  queryCancelPending : Bool
  postmasterAlive : Bool
deriving DecidableEq, Repr

/-- State threaded through one iteration of the wait loop: the slot, the
control block, the condition flags, whether whereToSendOutput has been set
to DestNone, and the reports emitted so far. -/
structure LoopState where
  my : PGPROC
  ctl : WalSndCtlData
  flags : SessionFlags
  outputDisabled : Bool
  reports : List ErrReport
deriving DecidableEq, Repr

/-- Whether the iteration leaves the wait loop or goes back to WaitLatch. -/
inductive LoopStep where
  | break_loop
  | continue_loop
deriving DecidableEq, Repr

/-- One iteration of the wait loop of SyncRepWaitForLSN: reset the latch;
if syncRepState reads SYNC_REP_WAIT_COMPLETE, break; if ProcDiePending,
ereport at WARNING for a query dispatcher and FATAL otherwise (modelled as
recording the report), set whereToSendOutput to DestNone, SyncRepCancelWait
and break; if QueryCancelPending, clear it and warn that the cancel is
ignored, then fall through; if the postmaster is dead, set ProcDiePending,
disable output, SyncRepCancelWait and break; otherwise WaitLatch and loop
again. -/
def sleepLoopIter (isQD : Bool) (st : LoopState) : LoopState × LoopStep :=
  let st1 := { st with my := { st.my with latchSet := false } }
  if st1.my.syncRepState = .sync_rep_wait_complete then
    (st1, .break_loop)
  else if st1.flags.procDiePending = true then
    let rep : ErrReport :=
      ⟨if isQD then .level_warning else .level_fatal, terminationMessage⟩
    let r := SyncRepCancelWait st1.my st1.ctl
    ({ st1 with my := r.2, ctl := r.1, outputDisabled := true,
                reports := st1.reports ++ [rep] }, .break_loop)
  else
    let st2 :=
      if st1.flags.queryCancelPending = true then
        { st1 with flags := { st1.flags with queryCancelPending := false },
                   reports := st1.reports ++ [⟨.level_warning, cancelIgnoredMessage⟩] }
      else st1
    if st2.flags.postmasterAlive = false then
      let r := SyncRepCancelWait st2.my st2.ctl
      ({ st2 with my := r.2, ctl := r.1,
                  flags := { st2.flags with procDiePending := true },
                  outputDisabled := true }, .break_loop)
    else
      (st2, .continue_loop)

/-- Operations of the core that touch the shared control block, for
stating cross-operation invariants: the locked section of
SyncRepWaitForLSN, SyncRepReleaseWaiters, SyncRepUpdateSyncStandbysDefined,
SyncRepCancelWait, and SyncRepCleanupAtProcExit. -/
inductive SyncRepOp where
  | wait_for_lsn (isQD : Bool) (mode : SyncRepMode) (lsn : Nat) (my : PGPROC)
  | release_waiters (myIdx : Nat) (a : Bool)
  | update_defined (desired : Bool)
  | cancel_wait (my : PGPROC)
  | cleanup_at_exit (my : PGPROC)

/-- Effect of one operation on the shared control block. -/
def applyOp (op : SyncRepOp) (ctl : WalSndCtlData) : WalSndCtlData :=
  match op with
  | .wait_for_lsn isQD mode lsn my => (SyncRepWaitForLSN_locked isQD mode lsn my ctl).1
  | .release_waiters myIdx a => (SyncRepReleaseWaiters myIdx a ctl).ctl
  | .update_defined d => (SyncRepUpdateSyncStandbysDefined d ctl).1
  | .cancel_wait my => (SyncRepCancelWait my ctl).1
  | .cleanup_at_exit my => SyncRepCleanupAtProcExit my ctl

/-- Invariant of the election scan after the senders in hs have been
examined: either nothing was eligible (priority accumulator still 0,
result still none), or the result names the first eligible sender whose
priority number is minimal among all eligible senders seen. -/
def scanInv (hs : List WalSnd) (prio : Nat) (res : Option Nat) : Prop :=
  match res with
  | none => prio = 0 ∧ ∀ w ∈ hs, eligibleSnd w = false
  | some j =>
      ∃ w, hs[j]? = some w ∧ eligibleSnd w = true ∧
        prio = w.sync_standby_priority ∧ 0 < prio ∧
        (∀ (k : Nat) (wk : WalSnd), hs[k]? = some wk → eligibleSnd wk = true →
          prio ≤ wk.sync_standby_priority) ∧
        (∀ (k : Nat) (wk : WalSnd), k < j → hs[k]? = some wk → eligibleSnd wk = true →
          prio < wk.sync_standby_priority)

/-!
Lemmas about the wake loop (SyncRepWakeQueue).
-/

/-- With all = true the wake loop drains the whole queue, waking every slot
in queue order and counting all of them. -/
lemma wakeLoop_all (high : Nat) (q : List PGPROC) :
    wakeLoop true high q = ([], q.map wakeProc, q.length) := by
  induction q with
  | nil => simp [wakeLoop]
  | cons p rest ih => simp [wakeLoop, ih]

/-- On a queue sorted by ascending waitLSN, the wake loop with all = false
dequeues exactly the prefix at or below the high-water mark, wakes exactly
those slots in order, and returns their number. -/
lemma wakeLoop_false (high : Nat) (q : List PGPROC)
    (hs : q.Pairwise (fun a b => a.waitLSN ≤ b.waitLSN)) :
    wakeLoop false high q =
      (q.dropWhile (fun p => decide (p.waitLSN ≤ high)),
       (q.takeWhile (fun p => decide (p.waitLSN ≤ high))).map wakeProc,
       (q.takeWhile (fun p => decide (p.waitLSN ≤ high))).length) := by
  induction q with
  | nil => simp [wakeLoop]
  | cons p rest ih =>
      rcases List.pairwise_cons.mp hs with ⟨hp, hrest⟩
      by_cases hcmp : high < p.waitLSN
      · have hnle : ¬ p.waitLSN ≤ high := not_le.mpr hcmp
        simp [wakeLoop, hcmp, hnle]
      · have hle : p.waitLSN ≤ high := not_lt.mp hcmp
        simp [wakeLoop, hcmp, hle, ih hrest]

/-- On a sorted queue, every enqueued slot at or below the high-water mark
is woken by the all = false wake loop. -/
lemma wakeLoop_false_mem (high : Nat) (q : List PGPROC)
    (hs : q.Pairwise (fun a b => a.waitLSN ≤ b.waitLSN))
    (p : PGPROC) (hpq : p ∈ q) (hple : p.waitLSN ≤ high) :
    wakeProc p ∈ (wakeLoop false high q).2.1 := by
  induction q with
  | nil => cases hpq
  | cons a rest ih =>
      rcases List.pairwise_cons.mp hs with ⟨ha, hrest⟩
      rcases List.mem_cons.mp hpq with h | h
      · subst h
        have hcmp : ¬ high < p.waitLSN := not_lt.mpr hple
        simp [wakeLoop, hcmp]
      · have hale : a.waitLSN ≤ high := le_trans (ha p h) hple
        have hcmp : ¬ high < a.waitLSN := not_lt.mpr hale
        simp only [wakeLoop, hcmp, and_false, if_false]
        exact List.mem_cons_of_mem _ (ih hrest h)

/-- Every slot the wake loop returns as woken is in state
SYNC_REP_WAIT_COMPLETE with its latch set. -/
lemma wakeLoop_woken_state (all : Bool) (high : Nat) (q : List PGPROC) :
    ∀ p ∈ (wakeLoop all high q).2.1,
      p.syncRepState = .sync_rep_wait_complete ∧ p.latchSet = true := by
  induction q with
  | nil => simp [wakeLoop]
  | cons a rest ih =>
      by_cases hcmp : all = false ∧ high < a.waitLSN
      · simp [wakeLoop, hcmp]
      · simp only [wakeLoop, hcmp, if_false]
        intro p hp
        rcases List.mem_cons.mp hp with h | h
        · subst h
          exact ⟨rfl, rfl⟩
        · exact ih p h

/-!
Lemmas about queue insertion (SyncRepQueueInsert).
-/

/-- Appending an element that fails the predicate does not change a
takeWhile. -/
lemma takeWhile_append_single {α : Type} (Q : α → Bool) (l : List α) (a : α)
    (h : Q a = false) : (l ++ [a]).takeWhile Q = l.takeWhile Q := by
  induction l with
  | nil => simp [List.takeWhile, h]
  | cons p rest ih =>
      by_cases hp : Q p
      · simp [List.takeWhile_cons, hp, ih]
      · simp [List.takeWhile_cons, hp]

/-- Appending an element that fails the predicate lands it at the end of a
dropWhile. -/
lemma dropWhile_append_single {α : Type} (Q : α → Bool) (l : List α) (a : α)
    (h : Q a = false) : (l ++ [a]).dropWhile Q = l.dropWhile Q ++ [a] := by
  induction l with
  | nil => simp [List.dropWhile, h]
  | cons p rest ih =>
      by_cases hp : Q p
      · simp [List.dropWhile_cons, hp, ih]
      · simp [List.dropWhile_cons, hp]

/-- A takeWhile over a list every element of which satisfies the predicate
is the list itself. -/
lemma takeWhile_all {α : Type} (Q : α → Bool) (l : List α)
    (h : ∀ x ∈ l, Q x = true) : l.takeWhile Q = l := by
  induction l with
  | nil => rfl
  | cons p rest ih =>
      have hp := h p (List.mem_cons_self p rest)
      simp [List.takeWhile_cons, hp, ih (fun x hx => h x (List.mem_cons_of_mem p hx))]

/-- A dropWhile over a list every element of which satisfies the predicate
is empty. -/
lemma dropWhile_all {α : Type} (Q : α → Bool) (l : List α)
    (h : ∀ x ∈ l, Q x = true) : l.dropWhile Q = [] := by
  induction l with
  | nil => rfl
  | cons p rest ih =>
      have hp := h p (List.mem_cons_self p rest)
      simp [List.dropWhile_cons, hp, ih (fun x hx => h x (List.mem_cons_of_mem p hx))]

/-- On a queue sorted by ascending waitLSN, the backward-walking insert
places the newcomer right after the block of slots with strictly smaller
waitLSN, hence before any slot with an equal waitLSN. -/
lemma syncRepQueueInsert_sorted (my : PGPROC) (q : List PGPROC)
    (hs : q.Pairwise (fun a b => a.waitLSN ≤ b.waitLSN)) :
    SyncRepQueueInsert my q =
      q.takeWhile (fun p => decide (p.waitLSN < my.waitLSN)) ++
        my :: q.dropWhile (fun p => decide (p.waitLSN < my.waitLSN)) := by
  induction q using List.reverseRecOn with
  | nil => simp [SyncRepQueueInsert, insertAux]
  | append_singleton q0 a ih =>
      rcases List.pairwise_append.mp hs with ⟨hq0, _, hrel⟩
      have hrel' : ∀ x ∈ q0, x.waitLSN ≤ a.waitLSN := fun x hx =>
        hrel x hx a (List.mem_singleton_self a)
      by_cases hlt : a.waitLSN < my.waitLSN
      · have hall : ∀ x ∈ q0 ++ [a], (fun p => decide (p.waitLSN < my.waitLSN)) x = true := by
          intro x hx
          rcases List.mem_append.mp hx with h | h
          · exact decide_eq_true (lt_of_le_of_lt (hrel' x h) hlt)
          · rcases List.mem_singleton.mp h with rfl
            exact decide_eq_true hlt
        rw [takeWhile_all _ _ hall, dropWhile_all _ _ hall]
        simp [SyncRepQueueInsert, List.reverse_append, insertAux, hlt]
      · have hQa : (fun p => decide (p.waitLSN < my.waitLSN)) a = false := by
          simp [hlt]
        rw [takeWhile_append_single (fun p => decide (p.waitLSN < my.waitLSN)) q0 a hQa,
          dropWhile_append_single (fun p => decide (p.waitLSN < my.waitLSN)) q0 a hQa]
        have hstep : SyncRepQueueInsert my (q0 ++ [a]) = SyncRepQueueInsert my q0 ++ [a] := by
          simp [SyncRepQueueInsert, List.reverse_append, insertAux, hlt]
        rw [hstep, ih hq0]
        simp

/-!
Lemmas about the election scan of SyncRepReleaseWaiters.
-/

/-- An eligible sender has a positive priority number. -/
lemma eligibleSnd_prio_pos (w : WalSnd) (h : eligibleSnd w = true) :
    0 < w.sync_standby_priority := by
  simp only [eligibleSnd, Bool.and_eq_true, decide_eq_true_eq] at h
  exact h.1.2

/-- Concrete eligible sender used by witness theorems. -/
def wSnd0 : WalSnd := ⟨7, .streaming, 300, 250, 1, false⟩

/-- Concrete control block used by the release-waiters witness: one waiter
per queue, the sender wSnd0 as the only array entry. -/
def ctl0 : WalSndCtlData :=
  ⟨100, 100, [⟨1, 150, .sync_rep_waiting, false⟩],
    [⟨2, 400, .sync_rep_waiting, false⟩], true, [wSnd0]⟩

/-- Concrete control block used by the fast-path witness: released mark
already at 500 in write mode. -/
def ctl1 : WalSndCtlData := ⟨500, 0, [], [], true, []⟩

/-- Concrete detached slot used by the fast-path witness. -/
def proc0 : PGPROC := ⟨9, 0, .sync_rep_not_waiting, false⟩

/-- Concrete control block used by the config-drain witness: a waiter in
each queue and the flag still set. -/
def ctl2 : WalSndCtlData :=
  ⟨0, 0, [⟨1, 2304, .sync_rep_waiting, false⟩],
    [⟨2, 2560, .sync_rep_waiting, false⟩], true, []⟩

/-- Concrete loop state used by the termination witness: the slot is
enqueued and waiting, ProcDiePending is set. -/
def st0 : LoopState :=
  ⟨⟨5, 1792, .sync_rep_waiting, false⟩,
   ⟨0, 0, [⟨5, 1792, .sync_rep_waiting, false⟩], [], true, []⟩,
   ⟨true, false, true⟩, false, []⟩

/-- Concrete loop state used by the cancellation witness: the slot is
enqueued and waiting, QueryCancelPending is set. -/
def st1 : LoopState :=
  ⟨⟨5, 1792, .sync_rep_waiting, false⟩,
   ⟨0, 0, [⟨5, 1792, .sync_rep_waiting, false⟩], [], true, []⟩,
   ⟨false, true, true⟩, false, []⟩

/-- Concrete sender array used by the election witness. -/
def ws0 : List WalSnd := [⟨5, .stopping, 0, 7, 2, false⟩]

/-- One scan step on a sender that replaces the incumbent. -/
lemma scanInv_step_pos (hs : List WalSnd) (prio : Nat) (res : Option Nat) (w : WalSnd)
    (h : scanInv hs prio res) (hel : eligibleSnd w = true)
    (himp : prio = 0 ∨ w.sync_standby_priority < prio) :
    scanInv (hs ++ [w]) w.sync_standby_priority (some hs.length) := by
  have hwpos : 0 < w.sync_standby_priority := eligibleSnd_prio_pos w hel
  refine ⟨w, List.getElem?_concat_length hs w, hel, rfl, hwpos, ?_, ?_⟩
  · intro k wk hk helk
    rcases Nat.lt_trichotomy k hs.length with hlt | heq | hgt
    · rw [List.getElem?_append] at hk
      rw [if_pos hlt] at hk
      match res, h with
      | none, ⟨_, hall⟩ =>
          exact absurd helk (by simp [hall wk (List.getElem?_mem hk)])
      | some j, ⟨w', hw', helw', hprio, hpos, hmin, _⟩ =>
          have hne : prio ≠ 0 := by omega
          have hwlt : w.sync_standby_priority < prio := by
            rcases himp with h0 | h0
            · exact absurd h0 hne
            · exact h0
          exact le_of_lt (lt_of_lt_of_le hwlt (hmin k wk hk helk))
    · subst heq
      rw [List.getElem?_concat_length] at hk
      cases hk
      exact le_refl _
    · have hnone : (hs ++ [w])[k]? = none := by
        apply List.getElem?_eq_none
        simp
        omega
      rw [hnone] at hk
      cases hk
  · intro k wk hklt hk helk
    rw [List.getElem?_append] at hk
    rw [if_pos hklt] at hk
    match res, h with
    | none, ⟨_, hall⟩ =>
        exact absurd helk (by simp [hall wk (List.getElem?_mem hk)])
    | some j, ⟨w', hw', helw', hprio, hpos, hmin, _⟩ =>
        have hne : prio ≠ 0 := by omega
        have hwlt : w.sync_standby_priority < prio := by
          rcases himp with h0 | h0
          · exact absurd h0 hne
          · exact h0
        exact lt_of_lt_of_le hwlt (hmin k wk hk helk)

/-- One scan step on a sender that does not replace the incumbent. -/
lemma scanInv_step_neg (hs : List WalSnd) (prio : Nat) (res : Option Nat) (w : WalSnd)
    (h : scanInv hs prio res)
    (hc : ¬(eligibleSnd w = true ∧ (prio = 0 ∨ w.sync_standby_priority < prio))) :
    scanInv (hs ++ [w]) prio res := by
  match res, h with
  | none, ⟨hp0, hall⟩ =>
      refine ⟨hp0, ?_⟩
      intro x hx
      rcases List.mem_append.mp hx with hmem | hmem
      · exact hall x hmem
      · rcases List.mem_singleton.mp hmem with rfl
        subst hp0
        by_cases he : eligibleSnd x = true
        · exact absurd ⟨he, Or.inl rfl⟩ hc
        · cases hxe : eligibleSnd x
          · rfl
          · exact absurd hxe he
  | some j, ⟨w', hw', helw', hprio, hpos, hmin, hstrict⟩ =>
      have hj : j < hs.length := by
        by_contra hge
        rw [List.getElem?_eq_none (Nat.le_of_not_lt hge)] at hw'
        cases hw'
      refine ⟨w', ?_, helw', hprio, hpos, ?_, ?_⟩
      · rw [List.getElem?_append, if_pos hj]
        exact hw'
      · intro k wk hk helk
        rcases Nat.lt_trichotomy k hs.length with hlt | heq | hgt
        · rw [List.getElem?_append, if_pos hlt] at hk
          exact hmin k wk hk helk
        · subst heq
          rw [List.getElem?_concat_length] at hk
          cases hk
          have : ¬ (prio = 0 ∨ w.sync_standby_priority < prio) := fun hor =>
            hc ⟨helk, hor⟩
          omega
        · have hnone : (hs ++ [w])[k]? = none := by
            apply List.getElem?_eq_none
            simp
            omega
          rw [hnone] at hk
          cases hk
      · intro k wk hklt hk helk
        have hlt : k < hs.length := lt_trans hklt hj
        rw [List.getElem?_append, if_pos hlt] at hk
        exact hstrict k wk hklt hk helk

/-- The election loop preserves the scan invariant across the rest of the
array. -/
lemma electLoop_inv (ws : List WalSnd) : ∀ (hs : List WalSnd) (prio : Nat) (res : Option Nat),
    scanInv hs prio res →
    scanInv (hs ++ ws) (electLoop ws hs.length prio res).1 (electLoop ws hs.length prio res).2 := by
  induction ws with
  | nil =>
      intro hs prio res h
      simpa [electLoop] using h
  | cons w rest ih =>
      intro hs prio res h
      by_cases hc : (eligibleSnd w && (prio == 0 || decide (w.sync_standby_priority < prio))) = true
      · have hc' : eligibleSnd w = true ∧ (prio = 0 ∨ w.sync_standby_priority < prio) := by
          simpa [Bool.and_eq_true, Bool.or_eq_true, beq_iff_eq, decide_eq_true_eq] using hc
        have hstep : electLoop (w :: rest) hs.length prio res =
            electLoop rest (hs.length + 1) w.sync_standby_priority (some hs.length) := by
          simp [electLoop, hc]
        rw [hstep]
        have hinv2 := scanInv_step_pos hs prio res w h hc'.1 hc'.2
        have hlen : (hs ++ [w]).length = hs.length + 1 := by simp
        have happ : (hs ++ [w]) ++ rest = hs ++ w :: rest := by simp
        have hres := ih (hs ++ [w]) w.sync_standby_priority (some hs.length) hinv2
        rw [hlen, happ] at hres
        exact hres
      · have hc' : ¬(eligibleSnd w = true ∧ (prio = 0 ∨ w.sync_standby_priority < prio)) := by
          intro hand
          apply hc
          simp [Bool.and_eq_true, Bool.or_eq_true, beq_iff_eq, decide_eq_true_eq]
          exact ⟨hand.1, hand.2⟩
        have hstep : electLoop (w :: rest) hs.length prio res =
            electLoop rest (hs.length + 1) prio res := by
          simp only [electLoop]
          rw [if_neg (by simpa using hc)]
        rw [hstep]
        have hinv2 := scanInv_step_neg hs prio res w h hc'
        have hlen : (hs ++ [w]).length = hs.length + 1 := by simp
        have happ : (hs ++ [w]) ++ rest = hs ++ w :: rest := by simp
        have hres := ih (hs ++ [w]) prio res hinv2
        rw [hlen, happ] at hres
        exact hres

/-- The completed election scan satisfies the invariant over the whole
sender array. -/
lemma electSyncWalSnd_inv (ws : List WalSnd) :
    scanInv ws (electLoop ws 0 0 none).1 (electSyncWalSnd ws) := by
  have h0 : scanInv ([] : List WalSnd) 0 none := ⟨rfl, by intro w hw; cases hw⟩
  have h := electLoop_inv ws [] 0 none h0
  simpa [electSyncWalSnd] using h

/-- When the election returns an index, that index names an eligible
sender of minimal priority, and every eligible sender at a smaller index
has a strictly larger priority number. -/
lemma electSyncWalSnd_sound (ws : List WalSnd) (j : Nat) (w : WalSnd)
    (hj : electSyncWalSnd ws = some j) (hw : ws[j]? = some w) :
    eligibleSnd w = true ∧
    (∀ (k : Nat) (wk : WalSnd), ws[k]? = some wk → eligibleSnd wk = true →
      w.sync_standby_priority ≤ wk.sync_standby_priority) ∧
    (∀ (k : Nat) (wk : WalSnd), k < j → ws[k]? = some wk → eligibleSnd wk = true →
      w.sync_standby_priority < wk.sync_standby_priority) := by
  have hinv := electSyncWalSnd_inv ws
  rw [hj] at hinv
  rcases hinv with ⟨w', hw', helw', hprio, hpos, hmin, hstrict⟩
  rw [hw] at hw'
  cases hw'
  refine ⟨helw', ?_, ?_⟩
  · intro k wk hk helk
    have := hmin k wk hk helk
    omega
  · intro k wk hklt hk helk
    have := hstrict k wk hklt hk helk
    omega

/-- When some eligible sender exists in the array, the election cannot
come back empty. -/
lemma electSyncWalSnd_isSome (ws : List WalSnd) (i : Nat) (w : WalSnd)
    (hw : ws[i]? = some w) (hel : eligibleSnd w = true) :
    (electSyncWalSnd ws).isSome = true := by
  have hinv := electSyncWalSnd_inv ws
  cases hres : electSyncWalSnd ws with
  | some j => rfl
  | none =>
      rw [hres] at hinv
      rcases hinv with ⟨_, hall⟩
      have hmem : w ∈ ws := List.getElem?_mem hw
      rw [hall w hmem] at hel
      cases hel

/-!
Helper lemmas about control-block updates.
-/

/-- Replacing a queue does not move either released-LSN mark. -/
lemma lsn_setQueue (c : WalSndCtlData) (m m' : SyncRepMode) (q : List PGPROC) :
    ((c.setQueue m q).lsn m') = c.lsn m' := by
  cases m <;> cases m' <;> rfl

/-- SyncRepWakeQueue does not move either released-LSN mark. -/
lemma lsn_wakeQueue (all : Bool) (m m' : SyncRepMode) (c : WalSndCtlData) :
    ((SyncRepWakeQueue all m c).1.lsn m') = c.lsn m' := by
  cases m <;> cases m' <;> rfl

/-- SyncRepCancelWait does not move either released-LSN mark. -/
lemma lsn_cancelWait (my : PGPROC) (c : WalSndCtlData) (m : SyncRepMode) :
    ((SyncRepCancelWait my c).1.lsn m) = c.lsn m := by
  unfold SyncRepCancelWait
  by_cases h : procIsLinked my.pid c
  · cases m <;> simp [h, WalSndCtlData.lsn]
  · cases m <;> simp [h, WalSndCtlData.lsn]

/-- SyncRepCleanupAtProcExit does not move either released-LSN mark. -/
lemma lsn_cleanup (my : PGPROC) (c : WalSndCtlData) (m : SyncRepMode) :
    ((SyncRepCleanupAtProcExit my c).lsn m) = c.lsn m := by
  unfold SyncRepCleanupAtProcExit
  by_cases h : procIsLinked my.pid c
  · cases m <;> simp [h, WalSndCtlData.lsn]
  · cases m <;> simp [h, WalSndCtlData.lsn]

/-- After deleting a pid from a queue list, no slot with that pid remains. -/
lemma any_delete_eq_false (pid : Nat) (q : List PGPROC) :
    (SHMQueueDeleteProc pid q).any (fun p => p.pid == pid) = false := by
  rw [Bool.eq_false_iff]
  intro hany
  rcases List.any_eq_true.mp hany with ⟨p, hp, hpe⟩
  rcases List.mem_filter.mp hp with ⟨_, hne⟩
  rw [bne_iff_ne] at hne
  exact hne (by simpa using hpe)

/-- After SyncRepCancelWait the slot is linked into no queue. -/
lemma cancelWait_not_linked (my : PGPROC) (c : WalSndCtlData) :
    procIsLinked my.pid (SyncRepCancelWait my c).1 = false := by
  unfold SyncRepCancelWait
  by_cases h : procIsLinked my.pid c
  · simp only [h, if_true]
    unfold procIsLinked
    rw [List.any_append]
    simp [any_delete_eq_false]
  · simp only [h]
    simpa using h

/-!
Claim theorems.
-/

/-- Claim C1: on a queue sorted by ascending waitLSN, SyncRepWakeQueue
dequeues exactly the prefix of slots whose waitLSN is at or below the
high-water mark (the whole queue when all = true), sets each such slot to
SYNC_REP_WAIT_COMPLETE and fires its latch, stops at the first slot above
the mark, and returns the number of slots woken; in particular every
enqueued slot at or below the mark is dequeued and its latch set before
the call returns. -/
theorem C1_wake_queue (high : Nat) (q : List PGPROC)
    (hsorted : q.Pairwise (fun a b => a.waitLSN ≤ b.waitLSN)) :
    wakeLoop true high q = ([], q.map wakeProc, q.length) ∧
    wakeLoop false high q =
      (q.dropWhile (fun p => decide (p.waitLSN ≤ high)),
       (q.takeWhile (fun p => decide (p.waitLSN ≤ high))).map wakeProc,
       (q.takeWhile (fun p => decide (p.waitLSN ≤ high))).length) ∧
    (∀ p ∈ q, p.waitLSN ≤ high → wakeProc p ∈ (wakeLoop false high q).2.1) ∧
    (∀ (all : Bool), ∀ p ∈ (wakeLoop all high q).2.1,
      p.syncRepState = .sync_rep_wait_complete ∧ p.latchSet = true) :=
  ⟨wakeLoop_all high q, wakeLoop_false high q hsorted,
   fun p hp hle => wakeLoop_false_mem high q hsorted p hp hle,
   fun all => wakeLoop_woken_state all high q⟩

/-- Witness for C1 on a concrete three-slot queue with the mark between
the second and third slot. -/
theorem C1_wake_queue_witness :
    ([⟨1, 10, .sync_rep_waiting, false⟩, ⟨2, 20, .sync_rep_waiting, false⟩,
       ⟨3, 30, .sync_rep_waiting, false⟩] : List PGPROC).Pairwise
        (fun a b => a.waitLSN ≤ b.waitLSN) ∧
    wakeLoop false 20
      ([⟨1, 10, .sync_rep_waiting, false⟩, ⟨2, 20, .sync_rep_waiting, false⟩,
        ⟨3, 30, .sync_rep_waiting, false⟩] : List PGPROC) =
      ([⟨3, 30, .sync_rep_waiting, false⟩],
       [⟨1, 10, .sync_rep_wait_complete, true⟩, ⟨2, 20, .sync_rep_wait_complete, true⟩], 2) :=
  ⟨by decide,
   ((C1_wake_queue 20
      ([⟨1, 10, .sync_rep_waiting, false⟩, ⟨2, 20, .sync_rep_waiting, false⟩,
        ⟨3, 30, .sync_rep_waiting, false⟩] : List PGPROC) (by decide)).2.1).trans (by decide)⟩

/-- Claim C2: in SyncRepReleaseWaiters, among eligible senders (pid
nonzero, streaming or stopping, positive priority, valid flush) the scan
elects the one with the smallest positive priority, ties broken by lowest
array index; when the elected sender is not the caller, the caller sets
announce_next_takeover and returns with nothing else changed; when the
caller is elected, it sets lsn[mode] to its own write or flush position
and wakes the queue of that mode exactly when that position strictly exceeds
the stored mark. -/
theorem C2_release_waiters (ctl : WalSndCtlData) (a : Bool) (myIdx : Nat) (my : WalSnd)
    (hmy : ctl.walsnds[myIdx]? = some my)
    (hgate : ¬(my.sync_standby_priority = 0 ∨
        (my.state ≠ WalSndState.streaming ∧ my.state ≠ WalSndState.stopping) ∨
        my.flush = 0)) :
    (∀ (j : Nat) (w : WalSnd), electSyncWalSnd ctl.walsnds = some j →
        ctl.walsnds[j]? = some w →
        eligibleSnd w = true ∧
        (∀ (k : Nat) (wk : WalSnd), ctl.walsnds[k]? = some wk → eligibleSnd wk = true →
          w.sync_standby_priority ≤ wk.sync_standby_priority) ∧
        (∀ (k : Nat) (wk : WalSnd), k < j → ctl.walsnds[k]? = some wk →
          eligibleSnd wk = true →
          w.sync_standby_priority < wk.sync_standby_priority)) ∧
    (electSyncWalSnd ctl.walsnds ≠ some myIdx →
        SyncRepReleaseWaiters myIdx a ctl = ⟨ctl, true, 0, 0⟩) ∧
    (electSyncWalSnd ctl.walsnds = some myIdx →
        (SyncRepReleaseWaiters myIdx a ctl).announce = false ∧
        (ctl.lsn_write < my.write →
          (SyncRepReleaseWaiters myIdx a ctl).ctl.lsn_write = my.write ∧
          (SyncRepReleaseWaiters myIdx a ctl).ctl.queue_write =
            (wakeLoop false my.write ctl.queue_write).1 ∧
          (SyncRepReleaseWaiters myIdx a ctl).numwrite =
            (wakeLoop false my.write ctl.queue_write).2.2) ∧
        (¬ ctl.lsn_write < my.write →
          (SyncRepReleaseWaiters myIdx a ctl).ctl.lsn_write = ctl.lsn_write ∧
          (SyncRepReleaseWaiters myIdx a ctl).ctl.queue_write = ctl.queue_write ∧
          (SyncRepReleaseWaiters myIdx a ctl).numwrite = 0) ∧
        (ctl.lsn_flush < my.flush →
          (SyncRepReleaseWaiters myIdx a ctl).ctl.lsn_flush = my.flush ∧
          (SyncRepReleaseWaiters myIdx a ctl).ctl.queue_flush =
            (wakeLoop false my.flush ctl.queue_flush).1 ∧
          (SyncRepReleaseWaiters myIdx a ctl).numflush =
            (wakeLoop false my.flush ctl.queue_flush).2.2) ∧
        (¬ ctl.lsn_flush < my.flush →
          (SyncRepReleaseWaiters myIdx a ctl).ctl.lsn_flush = ctl.lsn_flush ∧
          (SyncRepReleaseWaiters myIdx a ctl).ctl.queue_flush = ctl.queue_flush ∧
          (SyncRepReleaseWaiters myIdx a ctl).numflush = 0) ∧
        (SyncRepReleaseWaiters myIdx a ctl).ctl.sync_standbys_defined =
          ctl.sync_standbys_defined ∧
        (SyncRepReleaseWaiters myIdx a ctl).ctl.walsnds = ctl.walsnds) := by
  refine ⟨?_, ?_, ?_⟩
  · intro j w hj hw
    exact electSyncWalSnd_sound ctl.walsnds j w hj hw
  · intro hne
    unfold SyncRepReleaseWaiters
    rw [hmy]
    simp only [if_neg hgate, if_pos hne]
  · intro helected
    have hnn : ¬ (electSyncWalSnd ctl.walsnds ≠ some myIdx) := fun hne => hne helected
    unfold SyncRepReleaseWaiters
    rw [hmy]
    simp only [if_neg hgate, if_neg hnn]
    by_cases hw : ctl.lsn_write < my.write <;> by_cases hf : ctl.lsn_flush < my.flush <;>
      simp [hw, hf, SyncRepWakeQueue, WalSndCtlData.lsn, WalSndCtlData.queue,
        WalSndCtlData.setQueue]

/-- Witness for C2: on ctl0 the caller at index 0 passes the gate, is
elected, clears announce_next_takeover, advances the write mark to its
write position and wakes the one write-mode waiter below it. -/
theorem C2_release_waiters_witness :
    ctl0.walsnds[0]? = some wSnd0 ∧
    ¬(wSnd0.sync_standby_priority = 0 ∨
        (wSnd0.state ≠ WalSndState.streaming ∧ wSnd0.state ≠ WalSndState.stopping) ∨
        wSnd0.flush = 0) ∧
    (SyncRepReleaseWaiters 0 true ctl0).announce = false ∧
    (SyncRepReleaseWaiters 0 true ctl0).ctl.lsn_write = 300 ∧
    (SyncRepReleaseWaiters 0 true ctl0).numwrite = 1 := by
  have h := C2_release_waiters ctl0 true 0 wSnd0 (by decide) (by decide)
  have h3 := h.2.2 (by decide)
  refine ⟨by decide, by decide, h3.1, ?_, ?_⟩
  · rw [(h3.2.1 (by decide)).1]
    decide
  · rw [(h3.2.1 (by decide)).2.2]
    decide

/-- Claim C3: when the locked fast-path check of SyncRepWaitForLSN is
reached (for a dispatcher, the active-standby scan succeeded) and either
the role is not a dispatcher with sync_standbys_defined unset, or the
commit LSN is at or below lsn[mode], the call releases the lock and
returns with the control block untouched and the slot never enqueued. -/
theorem C3_fast_path (isQD : Bool) (mode : SyncRepMode) (xactCommitLSN : Nat)
    (my : PGPROC) (ctl : WalSndCtlData)
    (hreach : isQD = true → syncStandbyPresentScan ctl.walsnds = true)
    (hfp : (isQD = false ∧ ctl.sync_standbys_defined = false) ∨
      xactCommitLSN ≤ ctl.lsn mode) :
    SyncRepWaitForLSN_locked isQD mode xactCommitLSN my ctl =
      (ctl, my, .already_released) := by
  unfold SyncRepWaitForLSN_locked
  have h1 : ¬(isQD = true ∧ syncStandbyPresentScan ctl.walsnds = false) := by
    rintro ⟨hq, hscan⟩
    rw [hreach hq] at hscan
    cases hscan
  rw [if_neg h1, if_pos hfp]

/-- Witness for C3: with the write mark already at 500, a non-dispatcher
call at commit LSN 400 returns without enqueuing. -/
theorem C3_fast_path_witness :
    (false = true → syncStandbyPresentScan ctl1.walsnds = true) ∧
    ((false = false ∧ ctl1.sync_standbys_defined = false) ∨
      (400 : Nat) ≤ ctl1.lsn .wait_write) ∧
    SyncRepWaitForLSN_locked false .wait_write 400 proc0 ctl1 =
      (ctl1, proc0, .already_released) :=
  ⟨by decide, by decide,
   C3_fast_path false .wait_write 400 proc0 ctl1 (by decide) (by decide)⟩

/-- Claim C4: when the reconciler computes a desired sync_standbys_defined
that differs from the stored flag and the desired value is false, it
drains every waiter from both mode queues (each is set to
SYNC_REP_WAIT_COMPLETE, dequeued and its latch set) and then stores the
flag; when the desired value equals the stored flag, nothing changes. -/
theorem C4_update_defined (desired : Bool) (ctl : WalSndCtlData) :
    (desired ≠ ctl.sync_standbys_defined → desired = false →
        (SyncRepUpdateSyncStandbysDefined desired ctl).1.queue_write = [] ∧
        (SyncRepUpdateSyncStandbysDefined desired ctl).1.queue_flush = [] ∧
        (SyncRepUpdateSyncStandbysDefined desired ctl).1.sync_standbys_defined = false ∧
        (SyncRepUpdateSyncStandbysDefined desired ctl).2.1 = ctl.queue_write.map wakeProc ∧
        (SyncRepUpdateSyncStandbysDefined desired ctl).2.2 = ctl.queue_flush.map wakeProc ∧
        (∀ p ∈ (SyncRepUpdateSyncStandbysDefined desired ctl).2.1,
          p.syncRepState = .sync_rep_wait_complete ∧ p.latchSet = true) ∧
        (∀ p ∈ (SyncRepUpdateSyncStandbysDefined desired ctl).2.2,
          p.syncRepState = .sync_rep_wait_complete ∧ p.latchSet = true)) ∧
    (desired = ctl.sync_standbys_defined →
        SyncRepUpdateSyncStandbysDefined desired ctl = (ctl, [], [])) := by
  constructor
  · intro hne hf
    subst hf
    unfold SyncRepUpdateSyncStandbysDefined
    rw [if_pos hne, if_pos rfl]
    simp only [SyncRepWakeQueue, WalSndCtlData.lsn, WalSndCtlData.queue,
      WalSndCtlData.setQueue, wakeLoop_all]
    refine ⟨by simp, by simp, by simp, by simp, by simp, ?_, ?_⟩
    · intro p hp
      rcases List.mem_map.mp hp with ⟨x, _, rfl⟩
      exact ⟨rfl, rfl⟩
    · intro p hp
      rcases List.mem_map.mp hp with ⟨x, _, rfl⟩
      exact ⟨rfl, rfl⟩
  · intro heq
    unfold SyncRepUpdateSyncStandbysDefined
    rw [if_neg (by simp [heq])]

/-- Witness for C4: on ctl2 (flag set, one waiter in each queue) a
reconcile to false drains both queues, wakes both waiters and clears the
flag. -/
theorem C4_update_defined_witness :
    ((false : Bool) ≠ ctl2.sync_standbys_defined) ∧
    (SyncRepUpdateSyncStandbysDefined false ctl2).1.queue_write = [] ∧
    (SyncRepUpdateSyncStandbysDefined false ctl2).1.sync_standbys_defined = false ∧
    (SyncRepUpdateSyncStandbysDefined false ctl2).2.1 =
      [⟨1, 2304, .sync_rep_wait_complete, true⟩] ∧
    (SyncRepUpdateSyncStandbysDefined false ctl2).2.2 =
      [⟨2, 2560, .sync_rep_wait_complete, true⟩] := by
  have h := (C4_update_defined false ctl2).1 (by decide) rfl
  refine ⟨by decide, h.1, h.2.2.1, ?_, ?_⟩
  · rw [h.2.2.2.1]
    decide
  · rw [h.2.2.2.2.1]
    decide

/-- Counterexample to claim C5: inserting a newcomer with waitLSN 3 into
the sorted one-slot queue holding an equal waitLSN 3 places the newcomer
BEFORE the existing equal entry, not after it as the claim states: the
backward walk steps over the equal entry (the halt test is strict) and
splices the newcomer in at the head. -/
theorem C5_insert_counterexample :
    SyncRepQueueInsert ⟨3, 3, .sync_rep_waiting, false⟩
        [⟨2, 3, .sync_rep_waiting, false⟩] =
      [⟨3, 3, .sync_rep_waiting, false⟩, ⟨2, 3, .sync_rep_waiting, false⟩] ∧
    SyncRepQueueInsert ⟨3, 3, .sync_rep_waiting, false⟩
        [⟨2, 3, .sync_rep_waiting, false⟩] ≠
      [⟨2, 3, .sync_rep_waiting, false⟩, ⟨3, 3, .sync_rep_waiting, false⟩] := by
  constructor
  · decide
  · decide

/-- Claim C5 as amended: on a queue sorted by ascending waitLSN the
backward walk halts at the first node with strictly smaller waitLSN and
splices the newcomer in after it (at the head if none exists), so the
newcomer lands right after the block of strictly smaller slots and hence
BEFORE any existing entry with an equal waitLSN. -/
theorem C5_insert_amended (my : PGPROC) (q : List PGPROC)
    (hs : q.Pairwise (fun a b => a.waitLSN ≤ b.waitLSN)) :
    SyncRepQueueInsert my q =
      q.takeWhile (fun p => decide (p.waitLSN < my.waitLSN)) ++
        my :: q.dropWhile (fun p => decide (p.waitLSN < my.waitLSN)) ∧
    ∀ p ∈ q.takeWhile (fun p => decide (p.waitLSN < my.waitLSN)),
      p.waitLSN < my.waitLSN := by
  refine ⟨syncRepQueueInsert_sorted my q hs, ?_⟩
  intro p hp
  have := List.mem_takeWhile_imp hp
  simpa using this

/-- Witness for C5 amended: inserting waitLSN 3 into the sorted queue
with keys 1, 3, 5 lands between the 1 and the existing 3. -/
theorem C5_insert_amended_witness :
    ([⟨1, 1, .sync_rep_waiting, false⟩, ⟨2, 3, .sync_rep_waiting, false⟩,
       ⟨4, 5, .sync_rep_waiting, false⟩] : List PGPROC).Pairwise
        (fun a b => a.waitLSN ≤ b.waitLSN) ∧
    SyncRepQueueInsert ⟨3, 3, .sync_rep_waiting, false⟩
        [⟨1, 1, .sync_rep_waiting, false⟩, ⟨2, 3, .sync_rep_waiting, false⟩,
         ⟨4, 5, .sync_rep_waiting, false⟩] =
      [⟨1, 1, .sync_rep_waiting, false⟩, ⟨3, 3, .sync_rep_waiting, false⟩,
       ⟨2, 3, .sync_rep_waiting, false⟩, ⟨4, 5, .sync_rep_waiting, false⟩] :=
  ⟨by decide,
   ((C5_insert_amended ⟨3, 3, .sync_rep_waiting, false⟩
      [⟨1, 1, .sync_rep_waiting, false⟩, ⟨2, 3, .sync_rep_waiting, false⟩,
       ⟨4, 5, .sync_rep_waiting, false⟩] (by decide)).1).trans (by decide)⟩

/-- Counterexample to claim C6: with an empty configured name list the
identifier of the sender is on no list, yet SyncRepGetStandbyPriority still
returns 1, not the 0 the claim requires for an unlisted sender. -/
theorem C6_priority_counterexample :
    ("standby1" ∈ ([] : List String) → False) ∧
    SyncRepGetStandbyPriority [] "standby1" ≠ 0 ∧
    SyncRepGetStandbyPriority [] "standby1" = 1 := by
  refine ⟨?_, ?_, rfl⟩
  · intro h
    cases h
  · decide

/-- Claim C6 as amended: SyncRepGetStandbyPriority returns the constant
positive priority 1 for every sender, whatever the configured name list
holds (the degenerate at-most-one-walsender specialization); it never
returns 0, so no sender is ever ruled out by this function. -/
theorem C6_priority_amended (names : List String) (app : String) :
    SyncRepGetStandbyPriority names app = 1 ∧
    SyncRepGetStandbyPriority names app ≠ 0 :=
  ⟨rfl, by simp [SyncRepGetStandbyPriority]⟩

/-- An iteration of the sleep loop that sees an incomplete wait, no
termination request and a live postmaster always goes back to WaitLatch. -/
lemma sleepLoopIter_continue (isQD : Bool) (st : LoopState)
    (h1 : st.my.syncRepState ≠ .sync_rep_wait_complete)
    (h2 : st.flags.procDiePending = false)
    (h3 : st.flags.postmasterAlive = true) :
    (sleepLoopIter isQD st).2 = .continue_loop := by
  by_cases hq : st.flags.queryCancelPending = true
  · simp [sleepLoopIter, h1, h2, h3, hq]
  · simp [sleepLoopIter, h1, h2, h3, hq]

/-- Claim C7: when the sleep loop observes ProcDiePending (with the wait
not yet complete), it records the termination error at WARNING severity
for a query dispatcher and FATAL severity otherwise, disables further
client output, cancels the wait (the slot is dequeued if linked and its
state reset to SYNC_REP_NOT_WAITING), and breaks out of the loop; nothing
here undoes the local commit.  The ereport call is modelled as recording
the report, following the sequential reading of the loop body. -/
theorem C7_termination (isQD : Bool) (st : LoopState)
    (hstate : st.my.syncRepState ≠ .sync_rep_wait_complete)
    (hdie : st.flags.procDiePending = true) :
    (sleepLoopIter isQD st).2 = .break_loop ∧
    (sleepLoopIter isQD st).1.reports =
      st.reports ++ [⟨if isQD then .level_warning else .level_fatal, terminationMessage⟩] ∧
    (sleepLoopIter isQD st).1.outputDisabled = true ∧
    (sleepLoopIter isQD st).1.my.syncRepState = .sync_rep_not_waiting ∧
    procIsLinked st.my.pid (sleepLoopIter isQD st).1.ctl = false := by
  unfold sleepLoopIter
  rw [if_neg hstate, if_pos hdie]
  refine ⟨rfl, rfl, rfl, rfl, ?_⟩
  exact cancelWait_not_linked _ _

/-- Witness for C7: on the concrete state st0 (enqueued waiting slot,
ProcDiePending set) a non-dispatcher iteration breaks, records the FATAL
report, disables output and leaves the slot dequeued and not waiting. -/
theorem C7_termination_witness :
    st0.my.syncRepState ≠ .sync_rep_wait_complete ∧
    st0.flags.procDiePending = true ∧
    (sleepLoopIter false st0).2 = .break_loop ∧
    (sleepLoopIter false st0).1.reports = [⟨.level_fatal, terminationMessage⟩] ∧
    (sleepLoopIter false st0).1.my.syncRepState = .sync_rep_not_waiting ∧
    procIsLinked st0.my.pid (sleepLoopIter false st0).1.ctl = false := by
  have h := C7_termination false st0 (by decide) (by decide)
  refine ⟨by decide, by decide, h.1, ?_, h.2.2.2.1, h.2.2.2.2⟩
  rw [h.2.1]
  decide

/-- Claim C8: when the sleep loop observes QueryCancelPending (wait not
complete, no termination pending, postmaster alive), it clears the flag,
records the cancellation-ignored WARNING, and keeps waiting: the control
block and the Waiting state of the slot are untouched and the iteration
continues; moreover any iteration that does break out observed wait
completion, termination pending, or a dead postmaster. -/
theorem C8_cancel_ignored (isQD : Bool) (st : LoopState)
    (hstate : st.my.syncRepState = .sync_rep_waiting)
    (hdie : st.flags.procDiePending = false)
    (hcancel : st.flags.queryCancelPending = true)
    (halive : st.flags.postmasterAlive = true) :
    (sleepLoopIter isQD st).2 = .continue_loop ∧
    (sleepLoopIter isQD st).1.flags.queryCancelPending = false ∧
    (sleepLoopIter isQD st).1.reports =
      st.reports ++ [⟨.level_warning, cancelIgnoredMessage⟩] ∧
    (sleepLoopIter isQD st).1.ctl = st.ctl ∧
    (sleepLoopIter isQD st).1.my.syncRepState = .sync_rep_waiting ∧
    (∀ (isQD2 : Bool) (st2 : LoopState), (sleepLoopIter isQD2 st2).2 = .break_loop →
      st2.my.syncRepState = .sync_rep_wait_complete ∨
      st2.flags.procDiePending = true ∨
      st2.flags.postmasterAlive = false) := by
  have hst : st.my.syncRepState ≠ .sync_rep_wait_complete := by
    rw [hstate]
    intro h
    cases h
  unfold sleepLoopIter
  rw [if_neg hst]
  rw [if_neg (by simp [hdie])]
  rw [if_pos hcancel]
  rw [if_neg (by simp [halive])]
  refine ⟨rfl, rfl, rfl, rfl, by simp [hstate], ?_⟩
  intro isQD2 st2 hbrk
  by_cases h1 : st2.my.syncRepState = .sync_rep_wait_complete
  · exact Or.inl h1
  by_cases h2 : st2.flags.procDiePending = true
  · exact Or.inr (Or.inl h2)
  by_cases h3 : st2.flags.postmasterAlive = false
  · exact Or.inr (Or.inr h3)
  exfalso
  have hcont := sleepLoopIter_continue isQD2 st2 h1
    (by simpa using h2) (by simpa using h3)
  unfold sleepLoopIter at hcont
  rw [hbrk] at hcont
  cases hcont

/-- Witness for C8: on the concrete state st1 (enqueued waiting slot,
QueryCancelPending set) the iteration continues, clears the pending flag,
records the warning, and leaves the queue and slot state untouched. -/
theorem C8_cancel_ignored_witness :
    st1.my.syncRepState = .sync_rep_waiting ∧
    st1.flags.queryCancelPending = true ∧
    (sleepLoopIter false st1).2 = .continue_loop ∧
    (sleepLoopIter false st1).1.flags.queryCancelPending = false ∧
    (sleepLoopIter false st1).1.reports = [⟨.level_warning, cancelIgnoredMessage⟩] ∧
    (sleepLoopIter false st1).1.ctl = st1.ctl ∧
    (sleepLoopIter false st1).1.my.syncRepState = .sync_rep_waiting := by
  have h := C8_cancel_ignored false st1 (by decide) (by decide) (by decide) (by decide)
  refine ⟨by decide, by decide, h.1, h.2.1, ?_, h.2.2.2.1, h.2.2.2.2.1⟩
  rw [h.2.2.1]
  decide

/-- The locked section of SyncRepWaitForLSN never moves a released-LSN
mark. -/
lemma lsn_wait_locked (isQD : Bool) (mode : SyncRepMode) (x : Nat) (my : PGPROC)
    (ctl : WalSndCtlData) (m : SyncRepMode) :
    (SyncRepWaitForLSN_locked isQD mode x my ctl).1.lsn m = ctl.lsn m := by
  unfold SyncRepWaitForLSN_locked
  by_cases h1 : isQD = true ∧ syncStandbyPresentScan ctl.walsnds = false
  · rw [if_pos h1]
  · rw [if_neg h1]
    by_cases h2 : (isQD = false ∧ ctl.sync_standbys_defined = false) ∨ x ≤ ctl.lsn mode
    · rw [if_pos h2]
    · rw [if_neg h2]
      exact lsn_setQueue ctl mode m _

/-- The reconciler never moves a released-LSN mark. -/
lemma lsn_update_defined (d : Bool) (ctl : WalSndCtlData) (m : SyncRepMode) :
    (SyncRepUpdateSyncStandbysDefined d ctl).1.lsn m = ctl.lsn m := by
  unfold SyncRepUpdateSyncStandbysDefined
  by_cases hne : d ≠ ctl.sync_standbys_defined
  · rw [if_pos hne]
    by_cases hd : d = false
    · rw [if_pos hd]
      cases m <;>
        simp [SyncRepWakeQueue, WalSndCtlData.lsn, WalSndCtlData.queue,
          WalSndCtlData.setQueue]
    · rw [if_neg hd]
      cases m <;> simp [WalSndCtlData.lsn]
  · rw [if_neg hne]

/-- SyncRepReleaseWaiters only ever raises a released-LSN mark. -/
lemma release_lsn_mono (myIdx : Nat) (a : Bool) (ctl : WalSndCtlData) (m : SyncRepMode) :
    ctl.lsn m ≤ (SyncRepReleaseWaiters myIdx a ctl).ctl.lsn m := by
  unfold SyncRepReleaseWaiters
  split
  · exact le_refl _
  · rename_i my heq
    split
    · exact le_refl _
    · split
      · exact le_refl _
      · cases m <;>
          by_cases hw : ctl.lsn_write < my.write <;>
          by_cases hf : ctl.lsn_flush < my.flush <;>
          simp [hw, hf, SyncRepWakeQueue, WalSndCtlData.lsn, WalSndCtlData.queue,
            WalSndCtlData.setQueue] <;>
          omega

/-- Claim C9: released_lsn[mode] is non-decreasing: every core operation
(the locked section of wait_for_lsn, release_waiters, the reconciler,
cancel_wait, cleanup_at_exit) either leaves it unchanged or replaces it
with a strictly larger value, and across any sequence of operations it
never decreases. -/
theorem C9_lsn_monotone :
    (∀ (op : SyncRepOp) (ctl : WalSndCtlData) (m : SyncRepMode),
      (applyOp op ctl).lsn m = ctl.lsn m ∨ ctl.lsn m < (applyOp op ctl).lsn m) ∧
    (∀ (ops : List SyncRepOp) (ctl : WalSndCtlData) (m : SyncRepMode),
      ctl.lsn m ≤ (ops.foldl (fun c op => applyOp op c) ctl).lsn m) := by
  have hle : ∀ (op : SyncRepOp) (ctl : WalSndCtlData) (m : SyncRepMode),
      ctl.lsn m ≤ (applyOp op ctl).lsn m := by
    intro op ctl m
    cases op with
    | wait_for_lsn isQD mode lsn my =>
        exact le_of_eq (lsn_wait_locked isQD mode lsn my ctl m).symm
    | release_waiters myIdx a =>
        exact release_lsn_mono myIdx a ctl m
    | update_defined d =>
        exact le_of_eq (lsn_update_defined d ctl m).symm
    | cancel_wait my =>
        exact le_of_eq (lsn_cancelWait my ctl m).symm
    | cleanup_at_exit my =>
        exact le_of_eq (lsn_cleanup my ctl m).symm
  refine ⟨fun op ctl m => ?_, fun ops => ?_⟩
  · rcases lt_or_eq_of_le (hle op ctl m) with h | h
    · exact Or.inr h
    · exact Or.inl h.symm
  · induction ops with
    | nil => intro ctl m; exact le_refl _
    | cons op rest ih =>
        intro ctl m
        exact le_trans (hle op ctl m) (ih (applyOp op ctl) m)

/-- Claim C10: when the gate of SyncRepReleaseWaiters has passed (positive
priority, streaming or stopping, valid flush) and the pid of the caller is
nonzero, the caller itself is an eligible sender, so the election over the
array cannot come back empty and the debug assertion on the elected
sender cannot fail. -/
theorem C10_elect_found (ws : List WalSnd) (myIdx : Nat) (my : WalSnd)
    (hmy : ws[myIdx]? = some my) (hpid : my.pid ≠ 0)
    (hstate : my.state = WalSndState.streaming ∨ my.state = WalSndState.stopping)
    (hprio : 0 < my.sync_standby_priority) (hflush : my.flush ≠ 0) :
    ∃ j, electSyncWalSnd ws = some j := by
  have hel : eligibleSnd my = true := by
    rcases hstate with h | h <;>
      simp [eligibleSnd, hpid, hprio, hflush, h]
  have hsome := electSyncWalSnd_isSome ws myIdx my hmy hel
  exact Option.isSome_iff_exists.mp hsome

/-- Witness for C10: the one-entry array ws0 holds a stopping sender with
pid 5, priority 2 and flush 7, and the election finds it. -/
theorem C10_elect_found_witness :
    ws0[0]? = some ⟨5, .stopping, 0, 7, 2, false⟩ ∧
    (electSyncWalSnd ws0).isSome = true := by
  obtain ⟨j, hj⟩ := C10_elect_found ws0 0 ⟨5, .stopping, 0, 7, 2, false⟩
    (by decide) (by decide) (by decide) (by decide) (by decide)
  refine ⟨by decide, ?_⟩
  rw [hj]
  rfl
